import Mathlib

/-!
Verification of the Freshness Predictor backend (src/backend/main.py).

The file shallowly embeds the prediction-serving request path of the FastAPI
backend: the startup model-loading lifecycle (`lifespan`), the image
preprocessor (`preprocess_image`), the demo fallback predictor and the
`/predict` handler (`predict`).

Python floats are modelled as exact rationals (ℚ); `round(x, 2)` is modelled
by round-half-to-even at two decimal places, matching CPython's rounding rule.
Library calls that the backend delegates to (PIL image decoding and
resampling, the MD5 digest of `hashlib`, the Keras model forward pass) are
modelled as parameters or as dimension-faithful stand-ins, as noted at each
definition; the repository's own logic is translated line by line.
-/

namespace FreshnessPredictor

/-- Raw request body bytes (`contents = await file.read()`). -/
abbrev Bytes := List (Fin 256)

/-- A decoded PIL image: dimensions, a colour mode string (such as
`RGB` or `L`), and a pixel accessor `px y x c` returning a uint8 sample.
Pixel samples are uint8 values, hence `Fin 256`. -/
structure PILImage where
  width : Nat
  height : Nat
  mode : String
  px : Nat → Nat → Nat → Fin 256

/-- A rank-3 numpy array, as produced by `np.array(image)`: a shape and an
element accessor. -/
structure NDArray3 where
  shape : Nat × Nat × Nat
  val : Nat → Nat → Nat → ℚ

/-- A rank-4 numpy array, as produced by `np.expand_dims(a, axis=0)`. -/
structure NDArray4 where
  shape : Nat × Nat × Nat × Nat
  val : Nat → Nat → Nat → Nat → ℚ

/-- The loaded Keras model, abstracted to the only way the backend uses it:
`model.predict(img_array, verbose=0)` followed by `float(prediction[0][0])`
extracts one scalar from the input tensor. -/
abbrev Model := NDArray4 → ℚ

/-- Python `str.lower()`, modelled characterwise. -/
def pyLower (s : String) : String := String.mk (s.data.map Char.toLower)

/-- Python `s.startswith(p)`: `p` is a prefix of the character sequence. -/
def pyStartswith (s p : String) : Bool := p.data.isPrefixOf s.data

/-- The string literal in the content-type guard of `predict`. -/
def imageSlash : String := "image/"

/-- The detail string of the HTTP 400 raised for a non-image content type. -/
def detailNotImage : String := "File must be an image (JPEG, PNG, etc.)"

/-- The detail string of the HTTP 500 raised when processing fails
(`Error processing image: ...`, with the underlying message elided). -/
def detailProcessing : String := "Error processing image"

/-- The explanatory message attached to every demo-mode response. -/
def demoMessage : String :=
  "Demo mode: This is a mock prediction. Train a model for real predictions."

/-- The colour-mode string compared against in `preprocess_image`. -/
def modeRGB : String := "RGB"

/-- CPython `round` to an integer: round half to even. -/
def roundHalfEven (q : ℚ) : ℤ :=
  if q - (⌊q⌋ : ℚ) < 1/2 then ⌊q⌋
  else if 1/2 < q - (⌊q⌋ : ℚ) then ⌊q⌋ + 1
  else if ⌊q⌋ % 2 = 0 then ⌊q⌋ else ⌊q⌋ + 1

/-- Python `round(q, 2)`: round to two decimal places, half to even. -/
def round2 (q : ℚ) : ℚ := ((roundHalfEven (q * 100) : ℤ) : ℚ) / 100

/-- The constant `IMG_SIZE = (224, 224)` (main.py line 24). -/
def IMG_SIZE : Nat × Nat := (224, 224)

/-- PIL resizing, `image.resize(IMG_SIZE)`. PIL's resampling kernel is abstracted by
nearest-neighbour sampling; the claims only use that the result has exactly
the requested dimensions, keeps the colour mode and keeps uint8 samples,
which every PIL resampling mode guarantees. -/
def pilResize (image : PILImage) (size : Nat × Nat) : PILImage :=
  { width := size.1
    height := size.2
    mode := image.mode
    px := fun y x c => image.px (y * image.height / size.2) (x * image.width / size.1) c }

/-- PIL conversion, `image.convert` to RGB. PIL's channel-mapping kernel (grey replication,
alpha flattening) is abstracted: the result has mode `RGB`, the same
dimensions, and uint8 samples, which is all the claims use. -/
def pilConvertRGB (image : PILImage) : PILImage :=
  { image with mode := modeRGB }

/-- Numpy conversion `np.array(image)` on a 3-channel image: shape `(height, width, 3)`,
integer samples cast to numbers. -/
def npArrayOf (image : PILImage) : NDArray3 :=
  { shape := (image.height, image.width, 3)
    val := fun y x c => ((image.px y x c : Nat) : ℚ) }

/-- Elementwise `a / 255.0`. -/
def divBy255 (a : NDArray3) : NDArray3 :=
  { a with val := fun y x c => a.val y x c / 255 }

/-- Numpy `np.expand_dims(a, axis=0)`: prepend a batch dimension of size 1. -/
def expandDims0 (a : NDArray3) : NDArray4 :=
  { shape := (1, a.shape.1, a.shape.2.1, a.shape.2.2)
    val := fun _ y x c => a.val y x c }

/-- The conditional conversion step of `preprocess_image` (main.py lines
86–87): `if image.mode != "RGB": image = image.convert("RGB")`. -/
def toRGBIfNeeded (image : PILImage) : PILImage :=
  if image.mode ≠ modeRGB then pilConvertRGB image else image

/-- The function `preprocess_image` (main.py lines 77–95): resize to `IMG_SIZE`, convert
to RGB when the mode differs, scale by `1/255`, add the batch dimension. -/
def preprocess_image (image : PILImage) : NDArray4 :=
  expandDims0 (divBy255 (npArrayOf (toRGBIfNeeded (pilResize image IMG_SIZE))))

/-- The brightness `np.mean(img_array)` over the decoded image, as computed (and then never
used) in the demo branch: the mean uint8 sample over all pixels and channels.
Dead code in the source; kept so independence from it can be proved. -/
def meanBrightness (image : PILImage) : ℚ :=
  (∑ y ∈ Finset.range image.height, ∑ x ∈ Finset.range image.width,
      ∑ c ∈ Finset.range 3, ((image.px y x c : Nat) : ℚ)) /
    ((image.height * image.width * 3 : Nat) : ℚ)

/-- The expression `2.5 + (img_hash % 100) / 50.0` (main.py line 153), as a function of the
hash integer. -/
def demoHashDays (h : Nat) : ℚ := (2.5 : ℚ) + ((h % 100 : Nat) : ℚ) / 50

/-- The successful JSON payload of `/predict`: `days_remaining`, `status`,
`demo_mode`, and the optional `message` key (present only in demo mode). -/
structure PredictResponse where
  days_remaining : ℚ
  status : String
  demo_mode : Bool
  message : Option String
deriving Repr, DecidableEq

/-- The error outcomes of `predict`: the content-type guard raises
HTTP 400, any processing failure raises HTTP 500. -/
inductive PredictError where
  | invalidInput (detail : String)
  | processingError (detail : String)
deriving Repr, DecidableEq

/-- The process-wide globals written by `lifespan`: `model` and `demo_mode`
(main.py lines 19–20). -/
structure ServerState where
  model : Option Model
  demo_mode : Bool

/-- Parsing of the flag, `os.getenv("DEMO_MODE", "false").lower() == "true"` (main.py line 25):
how the environment flag is parsed into the module constant `DEMO_MODE`.
This constant is never read again anywhere in the source. -/
def parseDemoModeEnv (s : String) : Bool := pyLower s == "true"

/-- The startup half of `lifespan` (main.py lines 37–52), as a function of
whether the artifact path exists and of the outcome of
`keras.models.load_model` (a model, or a raised exception's message).
Both failure shapes are absorbed into `demo_mode := true`; the function is
total, so no exception escapes to callers. The parsed `DEMO_MODE`
environment constant is not consulted, exactly as in the source. -/
def startup (pathExists : Bool) (loadResult : Except String Model) : ServerState :=
  if ¬ pathExists then
    { model := none, demo_mode := true }
  else
    match loadResult with
    | .ok m => { model := some m, demo_mode := false }
    | .error _ => { model := none, demo_mode := true }

/-- The demo branch of `predict` (main.py lines 140–161): compute the (dead)
brightness, hash the raw bytes, derive `days_remaining`, clamp to `[0, 5]`,
round to 2 decimals, and answer with `demo_mode: true` and a message.
`md5head8` stands for `int(hashlib.md5(contents).hexdigest()[:8], 16)`,
the MD5 digest truncation applied to the raw bytes. -/
def demoPredict (md5head8 : Bytes → Nat) (contents : Bytes) (image : PILImage) :
    PredictResponse :=
  let _brightness := meanBrightness image
  let img_hash := md5head8 contents
  let days_remaining := demoHashDays img_hash
  let clamped := max 0 (min 5 days_remaining)
  { days_remaining := round2 clamped
    status := "success"
    demo_mode := true
    message := some demoMessage }

/-- The real-model branch of `predict` (main.py lines 163–178): preprocess,
run the model, take the scalar, clamp to `[0, 5]`, round to 2 decimals,
answer with `demo_mode: false` and no message key. -/
def realPredict (m : Model) (image : PILImage) : PredictResponse :=
  let img_array := preprocess_image image
  let days_remaining := m img_array
  let clamped := max 0 (min 5 days_remaining)
  { days_remaining := round2 clamped
    status := "success"
    demo_mode := false
    message := none }

/-- The `/predict` handler (main.py lines 116–184). `decode` stands for
`Image.open(io.BytesIO(contents))`, returning `none` when PIL raises (the
`except` arm maps any such failure to HTTP 500). The branch condition
`demo_mode or model is None` selects the demo branch. -/
def predict (md5head8 : Bytes → Nat) (decode : Bytes → Option PILImage)
    (st : ServerState) (contentType : String) (contents : Bytes) :
    Except PredictError PredictResponse :=
  if ¬ pyStartswith contentType imageSlash then
    .error (.invalidInput detailNotImage)
  else
    match decode contents with
    | none => .error (.processingError detailProcessing)
    | some image =>
      if st.demo_mode || st.model.isNone then
        .ok (demoPredict md5head8 contents image)
      else
        match st.model with
        | some m => .ok (realPredict m image)
        | none => .ok (demoPredict md5head8 contents image)

/-- The demo-predictor algorithm as the spec words it (section 4.3):
take the hash integer, compute `days = 2.5 + (hashInt mod 100) / 50.0`,
clamp to `[0.0, 5.0]`, round to 2 decimal places. Written from the spec,
to be compared against the code-derived `demoPredict`. -/
def specDemoDays (hashInt : Nat) : ℚ :=
  round2 (max 0 (min 5 ((2.5 : ℚ) + ((hashInt % 100 : Nat) : ℚ) / 50)))

/-! ## Helper lemmas about rounding and clamping -/

/-- Rounding fixes integers: `roundHalfEven` is the identity on `ℤ`. -/
theorem roundHalfEven_intCast (n : ℤ) : roundHalfEven (n : ℚ) = n := by
  simp [roundHalfEven]

/-- The function `roundHalfEven` returns either the floor or the floor plus one. -/
theorem roundHalfEven_eq_floor_or (q : ℚ) :
    roundHalfEven q = ⌊q⌋ ∨ roundHalfEven q = ⌊q⌋ + 1 := by
  unfold roundHalfEven
  split
  · exact Or.inl rfl
  · split
    · exact Or.inr rfl
    · split
      · exact Or.inl rfl
      · exact Or.inr rfl

/-- A lower integer bound survives `roundHalfEven`. -/
theorem le_roundHalfEven {a : ℤ} {q : ℚ} (h : (a : ℚ) ≤ q) :
    a ≤ roundHalfEven q := by
  have hfloor : a ≤ ⌊q⌋ := Int.le_floor.mpr h
  rcases roundHalfEven_eq_floor_or q with h1 | h1 <;> omega

/-- When `roundHalfEven` rounds up, the fractional part was at least a half. -/
theorem half_le_of_roundHalfEven_eq_add_one {q : ℚ}
    (h1 : roundHalfEven q = ⌊q⌋ + 1) : 1/2 ≤ q - (⌊q⌋ : ℚ) := by
  unfold roundHalfEven at h1
  split at h1
  · omega
  · rename_i hlt
    push_neg at hlt
    exact hlt

/-- An upper integer bound survives `roundHalfEven`. -/
theorem roundHalfEven_le {b : ℤ} {q : ℚ} (h : q ≤ (b : ℚ)) :
    roundHalfEven q ≤ b := by
  have hfloor : ⌊q⌋ ≤ b := Int.le_of_lt_add_one (by
    have := Int.lt_floor_add_one q
    have hqb := Int.floor_le_floor h
    simp only [Int.floor_intCast] at hqb
    omega)
  rcases roundHalfEven_eq_floor_or q with h1 | h1
  · omega
  · have hhalf := half_le_of_roundHalfEven_eq_add_one h1
    have hflt : (⌊q⌋ : ℚ) < (b : ℚ) := by linarith
    have : ⌊q⌋ < b := by exact_mod_cast hflt
    omega

/-- The function `round2` maps `[a, b]` (integer-valued ℚ endpoints scaled by 100) into
itself: if `0 ≤ q ≤ 5` then `0 ≤ round2 q ≤ 5`. -/
theorem round2_mem_Icc {q : ℚ} (h0 : 0 ≤ q) (h5 : q ≤ 5) :
    0 ≤ round2 q ∧ round2 q ≤ 5 := by
  have hlo : ((0 : ℤ) : ℚ) ≤ q * 100 := by push_cast; nlinarith
  have hhi : q * 100 ≤ ((500 : ℤ) : ℚ) := by push_cast; nlinarith
  have h1 := le_roundHalfEven hlo
  have h2 := roundHalfEven_le hhi
  unfold round2
  constructor
  · positivity
  · rw [div_le_iff₀ (by norm_num : (0:ℚ) < 100)]
    have hc : ((roundHalfEven (q * 100) : ℤ) : ℚ) ≤ 500 := by exact_mod_cast h2
    linarith

/-- The clamp `max 0 (min 5 q)` always lands in `[0, 5]`. -/
theorem clamp_mem_Icc (q : ℚ) : 0 ≤ max 0 (min 5 q) ∧ max 0 (min 5 q) ≤ 5 :=
  ⟨le_max_left 0 _, max_le (by norm_num) (min_le_left 5 q)⟩

/-- The function `round2` fixes any rational that already has at most 2 decimal places. -/
theorem round2_fix {q : ℚ} {n : ℤ} (h : q * 100 = (n : ℚ)) : round2 q = q := by
  unfold round2
  rw [h, roundHalfEven_intCast]
  field_simp at h ⊢
  linarith

/-- The demo hash-days value, explicitly: `2.5 + k / 50` with `k = h % 100`. -/
theorem demoHashDays_eq (h : Nat) :
    demoHashDays h = (5 : ℚ)/2 + ((h % 100 : Nat) : ℚ) / 50 := by
  unfold demoHashDays
  norm_num

/-- The demo hash-days value lies in `[2.5, 4.48]`. -/
theorem demoHashDays_bounds (h : Nat) :
    (5 : ℚ)/2 ≤ demoHashDays h ∧ demoHashDays h ≤ 448/100 := by
  rw [demoHashDays_eq]
  have hk : (h % 100 : Nat) < 100 := Nat.mod_lt _ (by norm_num)
  have hk99 : ((h % 100 : Nat) : ℚ) ≤ 99 := by exact_mod_cast Nat.lt_succ_iff.mp hk
  have hk0 : (0 : ℚ) ≤ ((h % 100 : Nat) : ℚ) := by positivity
  constructor <;> nlinarith

/-- The demo hash-days value times 100 is the integer `250 + 2·(h % 100)`. -/
theorem demoHashDays_mul_100 (h : Nat) :
    demoHashDays h * 100 = (((250 + 2 * (h % 100) : ℕ) : ℤ) : ℚ) := by
  rw [demoHashDays_eq]
  generalize (h % 100) = k
  push_cast
  ring

/-- On the demo branch the clamp is the identity and `round2` is the
identity: `days_remaining` is exactly `demoHashDays`. -/
theorem demoPredict_days_eq (md5head8 : Bytes → Nat) (contents : Bytes)
    (image : PILImage) :
    (demoPredict md5head8 contents image).days_remaining
      = demoHashDays (md5head8 contents) := by
  unfold demoPredict
  have hb := demoHashDays_bounds (md5head8 contents)
  have hmin : min 5 (demoHashDays (md5head8 contents))
      = demoHashDays (md5head8 contents) :=
    min_eq_right (by linarith [hb.2])
  have hmax : max 0 (min 5 (demoHashDays (md5head8 contents)))
      = demoHashDays (md5head8 contents) := by
    rw [hmin]
    exact max_eq_right (by linarith [hb.1])
  simp only [hmax]
  exact round2_fix (demoHashDays_mul_100 (md5head8 contents))

/-- The clamp-and-round of the real branch stays within `[0, 5]`. -/
theorem realPredict_days_bounds (m : Model) (image : PILImage) :
    0 ≤ (realPredict m image).days_remaining ∧
      (realPredict m image).days_remaining ≤ 5 := by
  have hc := clamp_mem_Icc (m (preprocess_image image))
  exact round2_mem_Icc hc.1 hc.2

/-- The function `round2` always lands on a multiple of `1/100`. -/
theorem round2_mul_100_int (q : ℚ) : ∃ k : ℤ, round2 q * 100 = (k : ℚ) := by
  refine ⟨roundHalfEven (q * 100), ?_⟩
  unfold round2
  field_simp

/-- The conditional RGB conversion preserves the image dimensions. -/
theorem toRGBIfNeeded_dims (image : PILImage) :
    (toRGBIfNeeded image).width = image.width ∧
      (toRGBIfNeeded image).height = image.height := by
  unfold toRGBIfNeeded pilConvertRGB
  split <;> exact ⟨rfl, rfl⟩

/-- After the conditional conversion the mode is always `RGB`. -/
theorem toRGBIfNeeded_mode (image : PILImage) :
    (toRGBIfNeeded image).mode = modeRGB := by
  unfold toRGBIfNeeded pilConvertRGB
  split
  · rfl
  · rename_i hmode
    exact not_not.mp hmode

/-- Inversion of a successful `predict` call: the content-type guard passed,
decoding succeeded, and the response came from exactly one of the two
branches, demo when `demo_mode or model is None` held and real otherwise. -/
theorem predict_ok_inversion {md5head8 : Bytes → Nat}
    {decode : Bytes → Option PILImage} {st : ServerState}
    {contentType : String} {contents : Bytes} {resp : PredictResponse}
    (hok : predict md5head8 decode st contentType contents = .ok resp) :
    pyStartswith contentType imageSlash = true ∧
    ∃ image, decode contents = some image ∧
      (((st.demo_mode || st.model.isNone) = true ∧
          resp = demoPredict md5head8 contents image) ∨
        ∃ m, (st.demo_mode || st.model.isNone) = false ∧ st.model = some m ∧
          resp = realPredict m image) := by
  unfold predict at hok
  split at hok
  · exact absurd hok (by simp)
  · rename_i hguard
    split at hok
    · exact absurd hok (by simp)
    · rename_i image hdec
      split at hok
      · rename_i hcond
        simp only [Except.ok.injEq] at hok
        exact ⟨of_not_not hguard, image, hdec, Or.inl ⟨hcond, hok.symm⟩⟩
      · rename_i hcond
        have hcond2 : (st.demo_mode || st.model.isNone) = false := by
          cases hb : (st.demo_mode || st.model.isNone)
          · rfl
          · exact absurd hb hcond
        split at hok
        · rename_i m hm
          simp only [Except.ok.injEq] at hok
          exact ⟨of_not_not hguard, image, hdec, Or.inr ⟨m, hcond2, hm, hok.symm⟩⟩
        · rename_i hm
          exfalso
          rw [hm] at hcond2
          simp at hcond2

/-- A fixed concrete 1×1 RGB test image. -/
def demoImage : PILImage :=
  { width := 1, height := 1, mode := modeRGB, px := fun _ _ _ => 0 }

/-- A fixed concrete 2×2 greyscale test image. -/
def demoImageGray : PILImage :=
  { width := 2, height := 2, mode := "L", px := fun _ _ _ => 7 }

/-- A fixed concrete model returning a constant prediction. -/
def demoModel : Model := fun _ => 3

/-- A concrete image content type. -/
def imagePng : String := "image/png"

/-- Another concrete image content type. -/
def imageJpeg : String := "image/jpeg"

/-- A concrete non-image content type. -/
def textPlain : String := "text/plain"

/-- The literal value of the environment flag when demo mode is requested. -/
def envTrue : String := "true"

/-! ## Claim theorems -/

/-- C1: every request that produces a success result has a
`days_remaining` value in `[0.0, 5.0]`, from the demo branch and the real
branch alike, for every magnitude of raw model output and every
hash-derived value. -/
theorem C1_success_days_in_zero_five (md5head8 : Bytes → Nat)
    (decode : Bytes → Option PILImage) (st : ServerState)
    (contentType : String) (contents : Bytes) (resp : PredictResponse)
    (hok : predict md5head8 decode st contentType contents = .ok resp) :
    0 ≤ resp.days_remaining ∧ resp.days_remaining ≤ 5 := by
  obtain ⟨-, image, -, hbr⟩ := predict_ok_inversion hok
  rcases hbr with ⟨-, rfl⟩ | ⟨m, -, -, rfl⟩
  · rw [demoPredict_days_eq]
    have hb := demoHashDays_bounds (md5head8 contents)
    exact ⟨by linarith [hb.1], by linarith [hb.2]⟩
  · exact realPredict_days_bounds m image

/-- Witness for C1 at a concrete demo-mode request. -/
theorem C1_witness :
    0 ≤ (demoPredict (fun _ => 0) [] demoImage).days_remaining ∧
      (demoPredict (fun _ => 0) [] demoImage).days_remaining ≤ 5 :=
  C1_success_days_in_zero_five (fun _ => 0) (fun _ => some demoImage)
    { model := none, demo_mode := true } imagePng []
    (demoPredict (fun _ => 0) [] demoImage) rfl

/-- C2: on the demo branch, `days_remaining` is exactly the spec's formula
`round(clamp(2.5 + (h mod 100)/50, 0, 5), 2)` of the MD5-derived integer of
the raw bytes, `status` is `success`, `demo_mode` is true, and the decoded
image (hence its brightness) has no influence on the response. -/
theorem C2_demo_matches_spec_formula (md5head8 : Bytes → Nat)
    (contents : Bytes) (image : PILImage) :
    (demoPredict md5head8 contents image).days_remaining
        = specDemoDays (md5head8 contents) ∧
    (demoPredict md5head8 contents image).status = "success" ∧
    (demoPredict md5head8 contents image).demo_mode = true ∧
    ∀ image2 : PILImage,
      demoPredict md5head8 contents image = demoPredict md5head8 contents image2 :=
  ⟨rfl, rfl, rfl, fun _ => rfl⟩

/-- C4: when the declared content type does not start with `image/`,
`predict` answers InvalidInput (HTTP 400) with the documented detail, and
the outcome is identical for every body, decoder and server state — no
body read, decode or further processing can influence it. -/
theorem C4_bad_content_type_rejected (md5head8 : Bytes → Nat)
    (decode decode2 : Bytes → Option PILImage) (st st2 : ServerState)
    (contentType : String) (contents contents2 : Bytes)
    (hbad : pyStartswith contentType imageSlash = false) :
    predict md5head8 decode st contentType contents
        = .error (.invalidInput detailNotImage) ∧
    predict md5head8 decode st contentType contents
        = predict md5head8 decode2 st2 contentType contents2 := by
  constructor
  · simp [predict, hbad]
  · simp [predict, hbad]

/-- Witness for C4 at content type `text/plain`, with two different bodies,
decoders and states. -/
theorem C4_witness :
    predict (fun _ => 0) (fun _ => some demoImage)
        { model := none, demo_mode := true } textPlain []
      = .error (.invalidInput detailNotImage) ∧
    predict (fun _ => 0) (fun _ => some demoImage)
        { model := none, demo_mode := true } textPlain []
      = predict (fun _ => 0) (fun _ => none)
          { model := some demoModel, demo_mode := false } textPlain [1] :=
  C4_bad_content_type_rejected (fun _ => 0) (fun _ => some demoImage)
    (fun _ => none) { model := none, demo_mode := true }
    { model := some demoModel, demo_mode := false } textPlain [] [1]
    (by decide)

/-- C9: the demo branch's pre-clamp value `2.5 + (h mod 100)/50` lies in
`[2.5, 4.48]` for every hash value, the clamp to `[0, 5]` is the identity
there, and the returned demo `days_remaining` is always in `[2.5, 4.48]`. -/
theorem C9_demo_preclamp_in_bounds (h : Nat) (md5head8 : Bytes → Nat)
    (contents : Bytes) (image : PILImage) :
    (2.5 : ℚ) ≤ demoHashDays h ∧ demoHashDays h ≤ 4.48 ∧
    max 0 (min 5 (demoHashDays h)) = demoHashDays h ∧
    (2.5 : ℚ) ≤ (demoPredict md5head8 contents image).days_remaining ∧
    (demoPredict md5head8 contents image).days_remaining ≤ 4.48 := by
  have hb := demoHashDays_bounds h
  have hb2 := demoHashDays_bounds (md5head8 contents)
  have h448 : (4.48 : ℚ) = 448/100 := by norm_num
  have h25 : (2.5 : ℚ) = 5/2 := by norm_num
  refine ⟨by rw [h25]; exact hb.1, by rw [h448]; exact hb.2, ?_, ?_, ?_⟩
  · rw [min_eq_right (by linarith [hb.2]), max_eq_right (by linarith [hb.1])]
  · rw [demoPredict_days_eq, h25]
    exact hb2.1
  · rw [demoPredict_days_eq, h448]
    exact hb2.2

/-- C3: the claim says the DEMO_MODE environment flag forces demo mode
independent of load success. The code parses the flag (line 25) but never
consults it: `startup` takes no flag input at all, and with the flag set to
`true` while the model loads successfully, the process is in real mode and
`predict` answers through the real model with `demo_mode: false`. This
theorem evaluates the code at that failing input. -/
theorem C3_env_flag_never_consulted :
    parseDemoModeEnv envTrue = true ∧
    (startup true (.ok demoModel)).demo_mode = false ∧
    (startup true (.ok demoModel)).model.isSome = true ∧
    predict (fun _ => 0) (fun _ => some demoImage) (startup true (.ok demoModel))
        imagePng [] = .ok (realPredict demoModel demoImage) ∧
    (realPredict demoModel demoImage).demo_mode = false :=
  ⟨by decide, rfl, rfl, rfl, rfl⟩

/-- C5: when the artifact path is missing or loading errors, startup ends
in demo mode with no model handle (and, being a total function, propagates
no exception), and every later successful `predict` response carries
`demo_mode: true`; when loading succeeds the state is real mode with the
model present. -/
theorem C5_startup_lifecycle (pathExists : Bool)
    (loadResult : Except String Model) :
    ((pathExists = false ∨ ∃ err, loadResult = .error err) →
      (startup pathExists loadResult).model = none ∧
      (startup pathExists loadResult).demo_mode = true ∧
      ∀ (md5head8 : Bytes → Nat) (decode : Bytes → Option PILImage)
        (contentType : String) (contents : Bytes) (resp : PredictResponse),
        predict md5head8 decode (startup pathExists loadResult)
            contentType contents = .ok resp →
        resp.demo_mode = true) ∧
    (∀ m : Model, pathExists = true → loadResult = .ok m →
      (startup pathExists loadResult).model = some m ∧
      (startup pathExists loadResult).demo_mode = false) := by
  constructor
  · intro hfail
    have hst : startup pathExists loadResult
        = { model := none, demo_mode := true } := by
      rcases hfail with hpe | ⟨err, herr⟩
      · subst hpe
        rfl
      · subst herr
        cases pathExists <;> rfl
    refine ⟨by rw [hst], by rw [hst], ?_⟩
    intro md5head8 decode contentType contents resp hok
    rw [hst] at hok
    obtain ⟨-, image, -, hbr⟩ := predict_ok_inversion hok
    rcases hbr with ⟨-, rfl⟩ | ⟨m, -, hm, rfl⟩
    · rfl
    · exact absurd hm (by simp)
  · intro m hpe hload
    subst hpe
    subst hload
    exact ⟨rfl, rfl⟩

/-- Witness for C5: a failed load at a concrete input ends in demo mode,
and a successful load at a concrete input ends with the model present. -/
theorem C5_witness :
    (startup false (.error detailProcessing)).demo_mode = true ∧
    (startup true (.ok demoModel)).model = some demoModel := by
  constructor
  · exact ((C5_startup_lifecycle false (.error detailProcessing)).1
      (Or.inl rfl)).2.1
  · exact ((C5_startup_lifecycle true (.ok demoModel)).2 demoModel rfl rfl).1

/-- C6: for every decoded image, preprocessing resizes to exactly 224×224,
makes the mode RGB, scales each uint8 sample by `1/255` into `[0, 1]`, and
prepends a batch dimension: the tensor has shape `(1, 224, 224, 3)` and
each entry is the converted resized pixel divided by 255. -/
theorem C6_preprocess_pipeline (image : PILImage) :
    (preprocess_image image).shape = (1, 224, 224, 3) ∧
    (pilResize image IMG_SIZE).width = 224 ∧
    (pilResize image IMG_SIZE).height = 224 ∧
    (toRGBIfNeeded (pilResize image IMG_SIZE)).mode = modeRGB ∧
    ∀ b y x c,
      (preprocess_image image).val b y x c
          = (((toRGBIfNeeded (pilResize image IMG_SIZE)).px y x c : ℕ) : ℚ) / 255 ∧
      0 ≤ (preprocess_image image).val b y x c ∧
      (preprocess_image image).val b y x c ≤ 1 := by
  have hd := toRGBIfNeeded_dims (pilResize image IMG_SIZE)
  refine ⟨?_, rfl, rfl, toRGBIfNeeded_mode _, ?_⟩
  · show (1, (toRGBIfNeeded (pilResize image IMG_SIZE)).height,
        (toRGBIfNeeded (pilResize image IMG_SIZE)).width, 3)
      = (1, 224, 224, 3)
    rw [hd.1, hd.2]
    rfl
  · intro b y x c
    refine ⟨rfl, ?_, ?_⟩
    · show (0 : ℚ)
        ≤ (((toRGBIfNeeded (pilResize image IMG_SIZE)).px y x c : ℕ) : ℚ) / 255
      positivity
    · show (((toRGBIfNeeded (pilResize image IMG_SIZE)).px y x c : ℕ) : ℚ) / 255
        ≤ 1
      rw [div_le_one (by norm_num : (0:ℚ) < 255)]
      exact_mod_cast Fin.is_le _

/-- C7: the demo fallback is a pure function of the request bytes: two
successful demo-mode responses for identical raw byte content have the same
`days_remaining`, whatever the decoder, server state or content type. -/
theorem C7_demo_two_run_determinism (md5head8 : Bytes → Nat)
    (decode1 decode2 : Bytes → Option PILImage) (st1 st2 : ServerState)
    (contentType1 contentType2 : String) (contents : Bytes)
    (resp1 resp2 : PredictResponse)
    (h1 : predict md5head8 decode1 st1 contentType1 contents = .ok resp1)
    (h2 : predict md5head8 decode2 st2 contentType2 contents = .ok resp2)
    (hd1 : resp1.demo_mode = true) (hd2 : resp2.demo_mode = true) :
    resp1.days_remaining = resp2.days_remaining := by
  obtain ⟨-, img1, -, hbr1⟩ := predict_ok_inversion h1
  obtain ⟨-, img2, -, hbr2⟩ := predict_ok_inversion h2
  rcases hbr1 with ⟨-, rfl⟩ | ⟨m1, -, -, rfl⟩
  · rcases hbr2 with ⟨-, rfl⟩ | ⟨m2, -, -, rfl⟩
    · rw [demoPredict_days_eq, demoPredict_days_eq]
    · exact absurd hd2 (by simp [realPredict])
  · exact absurd hd1 (by simp [realPredict])

/-- Witness for C7: the same empty byte content through two different
decoders, states and content types gives the same demo value. -/
theorem C7_witness :
    (demoPredict (fun _ => 5) [] demoImage).days_remaining
      = (demoPredict (fun _ => 5) [] demoImageGray).days_remaining :=
  C7_demo_two_run_determinism (fun _ => 5) (fun _ => some demoImage)
    (fun _ => some demoImageGray) { model := none, demo_mode := true }
    { model := none, demo_mode := false } imagePng imageJpeg []
    (demoPredict (fun _ => 5) [] demoImage)
    (demoPredict (fun _ => 5) [] demoImageGray) rfl rfl rfl rfl

/-- C8: every success `days_remaining`, demo or real, is the 2-decimal
rounding of a clamped value: it equals `round2` of some clamped input and
`100 · days_remaining` is an integer (at most two decimal digits). -/
theorem C8_days_rounded_two_decimals (md5head8 : Bytes → Nat)
    (decode : Bytes → Option PILImage) (st : ServerState)
    (contentType : String) (contents : Bytes) (resp : PredictResponse)
    (hok : predict md5head8 decode st contentType contents = .ok resp) :
    (∃ q : ℚ, resp.days_remaining = round2 (max 0 (min 5 q))) ∧
    ∃ k : ℤ, resp.days_remaining * 100 = (k : ℚ) := by
  obtain ⟨-, image, -, hbr⟩ := predict_ok_inversion hok
  rcases hbr with ⟨-, rfl⟩ | ⟨m, -, -, rfl⟩
  · exact ⟨⟨demoHashDays (md5head8 contents), rfl⟩,
      round2_mul_100_int (max 0 (min 5 (demoHashDays (md5head8 contents))))⟩
  · exact ⟨⟨m (preprocess_image image), rfl⟩,
      round2_mul_100_int (max 0 (min 5 (m (preprocess_image image))))⟩

/-- Witness for C8 at a concrete real-mode request. -/
theorem C8_witness :
    (∃ q : ℚ, (realPredict demoModel demoImage).days_remaining
        = round2 (max 0 (min 5 q))) ∧
    ∃ k : ℤ, (realPredict demoModel demoImage).days_remaining * 100 = (k : ℚ) :=
  C8_days_rounded_two_decimals (fun _ => 0) (fun _ => some demoImage)
    { model := some demoModel, demo_mode := false } imageJpeg []
    (realPredict demoModel demoImage) rfl

/-- C10: every success response has status `success` and a `demo_mode` flag
equal to the branch condition `demo_mode or model is None`; demo responses
carry a non-empty message and real responses carry no message field. -/
theorem C10_response_fields (md5head8 : Bytes → Nat)
    (decode : Bytes → Option PILImage) (st : ServerState)
    (contentType : String) (contents : Bytes) (resp : PredictResponse)
    (hok : predict md5head8 decode st contentType contents = .ok resp) :
    resp.status = "success" ∧
    resp.demo_mode = (st.demo_mode || st.model.isNone) ∧
    (resp.demo_mode = true → ∃ msg, resp.message = some msg ∧ msg ≠ "") ∧
    (resp.demo_mode = false → resp.message = none) := by
  obtain ⟨-, image, -, hbr⟩ := predict_ok_inversion hok
  rcases hbr with ⟨hcond, rfl⟩ | ⟨m, hcond, -, rfl⟩
  · refine ⟨rfl, hcond.symm, ?_, ?_⟩
    · intro _
      exact ⟨demoMessage, rfl, by decide⟩
    · intro hfalse
      exact Bool.noConfusion hfalse
  · refine ⟨rfl, hcond.symm, ?_, fun _ => rfl⟩
    intro htrue
    exact Bool.noConfusion htrue

/-- Witness for C10 at a concrete demo-mode request. -/
theorem C10_witness :
    (demoPredict (fun _ => 9) [] demoImage).status = "success" ∧
    (demoPredict (fun _ => 9) [] demoImage).demo_mode
        = (true || (none : Option Model).isNone) ∧
    ((demoPredict (fun _ => 9) [] demoImage).demo_mode = true →
      ∃ msg, (demoPredict (fun _ => 9) [] demoImage).message = some msg
        ∧ msg ≠ "") ∧
    ((demoPredict (fun _ => 9) [] demoImage).demo_mode = false →
      (demoPredict (fun _ => 9) [] demoImage).message = none) :=
  C10_response_fields (fun _ => 9) (fun _ => some demoImage)
    { model := none, demo_mode := true } imagePng []
    (demoPredict (fun _ => 9) [] demoImage) rfl

end FreshnessPredictor
